import Mathlib

/-!
Verification of the cart/session synchronization engine of a web storefront.

The client side is embedded from the frontend sources (`src/frontend/src`):
the api client (`lib/api.ts`), the page component (`pages/Index.tsx`), the
cart panel (`components/Cart.tsx`) and the product detail modal
(`components/ProductDetailModal.tsx`).  Prices are JavaScript numbers; they
are modelled as rationals.  The canonical server-side cart store is not part
of these sources; where a statement depends on it, the store is modelled from
the specification and marked as such in its doc comment.
-/

/-- One line of the canonical cart as returned by the cart read endpoint
(an element of `cartData.cart` consumed in `Index.tsx`): product id, display
snapshot and quantity.  The optional display fields may be absent from the
payload. -/
structure ServerCartItem where
  product_id : String
  name : String
  price : ℚ
  quantity : Nat
  pricebook_entry_id : String
  image_url : Option String
  color : Option String
  size : Option String
deriving Repr, DecidableEq

/-- The frontend product record (`CustomerProduct` in `api.ts`). -/
structure CustomerProduct where
  id : String
  name : String
  price : ℚ
  description : String
  color : String
  size : String
  product_code : String
  category : String
  image_url : String
  pricebook_entry_id : String
deriving Repr, DecidableEq

/-- A line of the client's local cart view (`CartItem` in `Index.tsx`). -/
structure CartItem where
  product : CustomerProduct
  quantity : Nat
deriving Repr, DecidableEq

/-- The per-line conversion in `Index.tsx` (the `cartData?.cart?.map` body,
lines 101-115): a local view line is built from a server line, with absent
optional display fields defaulting to the empty string and the fields the
server does not send (`description`, `product_code`, `category`) set to the
empty string. -/
def toCartItem (item : ServerCartItem) : CartItem :=
  { product :=
      { id := item.product_id
        name := item.name
        price := item.price
        description := ""
        color := item.color.getD ""
        size := item.size.getD ""
        product_code := ""
        category := ""
        image_url := item.image_url.getD ""
        pricebook_entry_id := item.pricebook_entry_id }
    quantity := item.quantity }

/-- The `cart` binding in `Index.tsx`: `cartData?.cart?.map(...) || []`.
The local view is a pure function of the most recently fetched response. -/
def cartView (cartData : Option (List ServerCartItem)) : List CartItem :=
  match cartData with
  | some items => items.map toCartItem
  | none => []

/-- Outcome of one poll tick of the cart query: either the canonical cart was
fetched, or the read failed to reach the store. -/
inductive TickResult where
  | fetched : List ServerCartItem → TickResult
  | failed : TickResult
deriving Repr, DecidableEq

/-- The user-visible state owned by the cart poller: the local cart view and
the list of error toasts that have been surfaced to the user. -/
structure PollerUiState where
  view : List CartItem
  toasts : List String
deriving Repr, DecidableEq

/-- One poll tick of the cart query (`useQuery` with `refetchInterval` in
`Index.tsx`, lines 92-98): a successful fetch replaces the view wholesale with
the image of the response; on a failed fetch the query keeps the previously
fetched data, and since the component destructures only `data` and registers
no error handler for this query, no toast is pushed. -/
def cartQueryTick (s : PollerUiState) : TickResult → PollerUiState
  | .fetched items => { s with view := items.map toCartItem }
  | .failed => s

/-- The poller state after a sequence of ticks. -/
def cartQueryRun (s : PollerUiState) (ticks : List TickResult) : PollerUiState :=
  ticks.foldl cartQueryTick s

/-- Modelled from the spec: the cart query's retry policy lives in the query
client configuration, which is not among the sources here; per the spec each
tick is fire-and-forget and issues exactly one read of the store, with no
automatic retry mid-interval. -/
def pollerReadsIssued (ticks : List TickResult) : Nat := ticks.length

namespace CartPanel

/-- The `subtotal` constant in `Cart.tsx` (line 29):
`items.reduce((sum, item) => sum + item.product.price * item.quantity, 0)`. -/
def subtotal (items : List CartItem) : ℚ :=
  items.foldl (fun sum item => sum + item.product.price * (item.quantity : ℚ)) 0

/-- The `tax` constant in `Cart.tsx` (line 33): `subtotal * 0.1`. -/
def tax (items : List CartItem) : ℚ := subtotal items * (1 / 10)

/-- The `total` constant in `Cart.tsx` (line 34): `subtotal + tax` — the figure
rendered next to the Total label in the cart footer. -/
def total (items : List CartItem) : ℚ := subtotal items + tax items

end CartPanel

/-- Sum over all lines of unit price times quantity, exactly as the spec words
the derived `total` of a cart. -/
def lineSum (items : List CartItem) : ℚ :=
  (items.map (fun item => item.product.price * (item.quantity : ℚ))).sum

/-- The `cartItemCount` prop computed in `Index.tsx` (line 348):
`cart.reduce((sum, item) => sum + item.quantity, 0)`, displayed by the header
badge. -/
def cartItemCount (items : List CartItem) : Nat :=
  items.foldl (fun sum item => sum + item.quantity) 0

/-- A concrete product used to evaluate the embedding on closed inputs. -/
def sampleProduct : CustomerProduct :=
  { id := "p1", name := "Tee", price := 10, description := "", color := "",
    size := "", product_code := "", category := "", image_url := "",
    pricebook_entry_id := "pbe1" }

/-- A concrete one-line cart view: unit price 10, quantity 1. -/
def sampleCart : List CartItem := [{ product := sampleProduct, quantity := 1 }]

/-- Folding addition of a projection over a list starting from `a` equals `a`
plus the sum of the projected list. -/
theorem foldl_add_map_sum {α M : Type} [AddCommMonoid M] (f : α → M)
    (l : List α) (a : M) :
    l.foldl (fun s x => s + f x) a = a + (l.map f).sum := by
  induction l generalizing a with
  | nil => simp
  | cons x xs ih => simp [ih, add_assoc]

/-- Claim C1: after a poll tick that fetched the canonical cart, the local view
is exactly the per-line image of the server response — product id, name, price,
quantity and snapshot fields copied through, absent optional display fields
defaulting to empty strings — and it is independent of whatever view, including
one holding locally pending unconfirmed edits, was present before the tick. -/
theorem poll_tick_replaces_view_wholesale (s : PollerUiState)
    (items : List ServerCartItem) :
    (cartQueryTick s (.fetched items)).view = items.map toCartItem ∧
    (∀ t : PollerUiState,
      (cartQueryTick t (.fetched items)).view
        = (cartQueryTick s (.fetched items)).view) ∧
    ∀ it : ServerCartItem,
      (toCartItem it).product.id = it.product_id ∧
      (toCartItem it).product.name = it.name ∧
      (toCartItem it).product.price = it.price ∧
      (toCartItem it).quantity = it.quantity ∧
      (toCartItem it).product.pricebook_entry_id = it.pricebook_entry_id ∧
      (toCartItem it).product.image_url = it.image_url.getD "" ∧
      (toCartItem it).product.color = it.color.getD "" ∧
      (toCartItem it).product.size = it.size.getD "" := by
  refine ⟨rfl, fun t => rfl, fun it => ?_⟩
  simp [toCartItem]

/-- Claim C2 counterexample: on a cart with a single line of unit price 10 and
quantity 1, the figure displayed as the total is 11 — subtotal plus 10% tax —
and not the sum 10 of unit price times quantity over the lines. -/
theorem displayed_total_includes_tax :
    CartPanel.total sampleCart ≠ lineSum sampleCart := by
  norm_num [CartPanel.total, CartPanel.tax, CartPanel.subtotal, lineSum,
    sampleCart, sampleProduct]

/-- Claim C2 amended: the displayed subtotal equals the sum of unit price times
quantity over all lines, recomputed from the current items on every render,
and the displayed total equals that subtotal plus a 10% tax on it. -/
theorem subtotal_is_line_sum (items : List CartItem) :
    CartPanel.subtotal items = lineSum items ∧
    CartPanel.total items = lineSum items + lineSum items * (1 / 10) := by
  have hs : CartPanel.subtotal items = lineSum items := by
    simp [CartPanel.subtotal, lineSum, foldl_add_map_sum]
  exact ⟨hs, by simp [CartPanel.total, CartPanel.tax, hs]⟩

/-- Claim C9: the item count passed to the header badge equals the sum of the
line quantities of the most recently fetched canonical cart. -/
theorem header_item_count (serverItems : List ServerCartItem) :
    cartItemCount (cartView (some serverItems))
      = (serverItems.map (fun it => it.quantity)).sum := by
  simp [cartItemCount, cartView, foldl_add_map_sum, List.map_map]
  rfl

/-- Claim C6: a failed poll read is swallowed at the poller level — it leaves
the view and the surfaced toasts unchanged — no tick, successful or failed,
ever surfaces an error toast, and a run of ticks issues exactly one read per
tick, the next scheduled tick being the only retry. -/
theorem poller_failure_swallowed (s : PollerUiState) (ticks : List TickResult) :
    cartQueryTick s .failed = s ∧
    (∀ t : TickResult, (cartQueryTick s t).toasts = s.toasts) ∧
    (cartQueryRun s ticks).toasts = s.toasts ∧
    pollerReadsIssued ticks = ticks.length := by
  refine ⟨rfl, fun t => by cases t <;> rfl, ?_, rfl⟩
  induction ticks generalizing s with
  | nil => rfl
  | cons t ts ih =>
      have h : (cartQueryTick s t).toasts = s.toasts := by cases t <;> rfl
      simpa [cartQueryRun, h] using ih (cartQueryTick s t)

/-- An HTTP response as consumed by the api client in `api.ts`: the `ok`
status, the parsed JSON body on success, and the optional `detail` field of
the error JSON on failure. -/
structure HttpResponse (α : Type) where
  ok : Bool
  body : α
  errorDetail : Option String
deriving Repr, DecidableEq

/-- The outcome an api-client function delivers to its invoking caller:
either the parsed body, or a thrown error carrying a message. -/
inductive ApiResult (α : Type) where
  | ok : α → ApiResult α
  | thrown : String → ApiResult α
deriving Repr, DecidableEq

/-- Whether an api call ended by throwing an error to its caller. -/
def ApiResult.isThrown {α : Type} : ApiResult α → Bool
  | .ok _ => false
  | .thrown _ => true

/-- JavaScript `error.detail || fallback`: the fallback is used when `detail`
is absent or the empty string. -/
def detailOr (detail : Option String) (fallback : String) : String :=
  match detail with
  | some d => if d = "" then fallback else d
  | none => fallback

namespace cartApi

/-- The `cartApi.addToCart` function in `api.ts` (lines 195-206): on a non-ok
response it throws an error built from the response's `detail`, otherwise it
returns the parsed body to the caller. -/
def addToCart {α : Type} (resp : HttpResponse α) : ApiResult α :=
  if resp.ok then .ok resp.body
  else .thrown (detailOr resp.errorDetail "Failed to add to cart")

/-- The `cartApi.updateCartItem` function in `api.ts` (lines 208-217). -/
def updateCartItem {α : Type} (resp : HttpResponse α) : ApiResult α :=
  if resp.ok then .ok resp.body
  else .thrown (detailOr resp.errorDetail "Failed to update cart")

/-- The `cartApi.removeFromCart` function in `api.ts` (lines 219-228). -/
def removeFromCart {α : Type} (resp : HttpResponse α) : ApiResult α :=
  if resp.ok then .ok resp.body
  else .thrown (detailOr resp.errorDetail "Failed to remove from cart")

/-- The `cartApi.clearCart` function in `api.ts` (lines 230-239). -/
def clearCart {α : Type} (resp : HttpResponse α) : ApiResult α :=
  if resp.ok then .ok resp.body
  else .thrown (detailOr resp.errorDetail "Failed to clear cart")

end cartApi

/-- Claim C3: every cart mutation api call surfaces a failing response to its
invoking caller synchronously as a thrown error — never a silently returned
success — and returns the parsed body exactly on ok responses. -/
theorem mutation_errors_surfaced {α : Type} (resp : HttpResponse α) :
    (resp.ok = false →
      (cartApi.addToCart resp).isThrown = true ∧
      (cartApi.updateCartItem resp).isThrown = true ∧
      (cartApi.removeFromCart resp).isThrown = true ∧
      (cartApi.clearCart resp).isThrown = true) ∧
    (resp.ok = true →
      cartApi.addToCart resp = .ok resp.body ∧
      cartApi.updateCartItem resp = .ok resp.body ∧
      cartApi.removeFromCart resp = .ok resp.body ∧
      cartApi.clearCart resp = .ok resp.body) := by
  constructor
  · intro h
    refine ⟨?_, ?_, ?_, ?_⟩ <;>
      simp [cartApi.addToCart, cartApi.updateCartItem, cartApi.removeFromCart,
        cartApi.clearCart, h, ApiResult.isThrown]
  · intro h
    refine ⟨?_, ?_, ?_, ?_⟩ <;>
      simp [cartApi.addToCart, cartApi.updateCartItem, cartApi.removeFromCart,
        cartApi.clearCart, h]

/-- Evaluation of claim C3 on a concrete failing response. -/
theorem mutation_errors_surfaced_witness :
    (cartApi.addToCart ({ ok := false, body := 0, errorDetail := none }
      : HttpResponse Nat)).isThrown = true :=
  ((mutation_errors_surfaced
      ({ ok := false, body := 0, errorDetail := none } : HttpResponse Nat)).1
    rfl).1

/-- The state of the cart-owning view relevant to polling: whether the
component is still mounted (its effect cleanup clears the interval on
teardown), whether the admin view is active, and the session id. -/
structure ViewState where
  mounted : Bool
  isAdmin : Bool
  sessionId : String
deriving Repr, DecidableEq

/-- The polling guard embedded from `Index.tsx`: the cart query (lines 92-98)
refetches only while the component is mounted and `enabled` holds, with
`enabled: !!sessionId && !isAdmin`; the backup interval (lines 70-77) is
cleared by the effect cleanup on teardown and its callback invalidates only
when `sessionId && !isAdmin`. -/
def pollerIssuesRead (s : ViewState) : Bool :=
  s.mounted && !(s.sessionId == "") && !s.isAdmin

/-- Number of reads issued over a trace of view states. -/
def readsInTrace (trace : List ViewState) : Nat :=
  (trace.filter pollerIssuesRead).length

/-- Claim C7: while the admin view is active the cart poller issues no reads,
and after view teardown (the component unmounted, its interval cleared) no
further reads are issued; hence over any trace of states each of which has the
admin view active or the view torn down, the number of reads issued is zero. -/
theorem admin_suspends_polling (s : ViewState) (trace : List ViewState)
    (htrace : ∀ t ∈ trace, t.isAdmin = true ∨ t.mounted = false) :
    (s.isAdmin = true → pollerIssuesRead s = false) ∧
    (s.mounted = false → pollerIssuesRead s = false) ∧
    readsInTrace trace = 0 := by
  have hone : ∀ t : ViewState, t.isAdmin = true ∨ t.mounted = false →
      pollerIssuesRead t = false := by
    intro t ht
    rcases ht with h | h <;> simp [pollerIssuesRead, h]
  refine ⟨fun h => hone s (Or.inl h), fun h => hone s (Or.inr h), ?_⟩
  induction trace with
  | nil => rfl
  | cons t ts ih =>
      have h1 : pollerIssuesRead t = false :=
        hone t (htrace t (List.mem_cons_self t ts))
      have h2 := ih (fun u hu => htrace u (List.mem_cons_of_mem t hu))
      simp [readsInTrace, List.filter, h1] at h2 ⊢
      exact h2

/-- Evaluation of claim C7 on a concrete admin-active state and a concrete
trace of admin-active and torn-down states. -/
theorem admin_suspends_polling_witness :
    readsInTrace
      [{ mounted := true, isAdmin := true, sessionId := "sess1" },
       { mounted := false, isAdmin := false, sessionId := "sess1" }] = 0 :=
  (admin_suspends_polling
      { mounted := true, isAdmin := true, sessionId := "sess1" }
      [{ mounted := true, isAdmin := true, sessionId := "sess1" },
       { mounted := false, isAdmin := false, sessionId := "sess1" }]
      (by decide)).2.2

/-- A call issued by the web client against the backend or the query cache. -/
inductive ClientCall where
  | postOrder (sessionId : Option String)
  | invalidateCartQuery (sessionId : String)
  | clearCartRequest (sessionId : String)
  | showToast (title : String)
deriving Repr, DecidableEq

/-- The `orderApi.createOrder` function in `api.ts` (lines 244-256): POST to
the orders endpoint, appending `session_id` as a query parameter exactly when
a non-falsy (present and non-empty) session id was supplied. -/
def createOrderCall (sessionId : Option String) : ClientCall :=
  .postOrder (match sessionId with
              | some s => if s = "" then none else some s
              | none => none)

/-- The calls issued by the web client's checkout path (`createOrderMutation`
in `Index.tsx`, lines 238-256) when order creation succeeds: the order request
itself — carrying the session id — then an invalidation of the cart query,
which re-fetches the canonical cart, and a success toast. -/
def checkoutSuccessCalls (sessionId : String) : List ClientCall :=
  [createOrderCall (some sessionId),
   .invalidateCartQuery sessionId,
   .showToast "Order placed!"]

/-- Whether a client call is a cart-clear request
(`DELETE cart/{session_id}`, i.e. `cartApi.clearCart`). -/
def ClientCall.isClearCartRequest : ClientCall → Bool
  | .clearCartRequest _ => true
  | _ => false

/-- Claim C8 counterexample: for the concrete session id "sess1" the checkout
success path issues no cart-clear request — the web client does not itself
clear the session's cart after a successful order; it only re-reads the
canonical cart. -/
theorem checkout_does_not_clear_cart :
    (checkoutSuccessCalls "sess1").all
      (fun c => ! c.isClearCartRequest) = true := by
  decide

/-- Claim C8 amended: after a successful order placement the web client does
not itself clear the session's cart; it passes the session id along with the
order-creation request — delegating any clearing to the order endpoint — and
then re-fetches the canonical cart by invalidating the cart query. -/
theorem checkout_delegates_clearing (sid : String) (h : sid ≠ "") :
    createOrderCall (some sid) = .postOrder (some sid) ∧
    (∀ c ∈ checkoutSuccessCalls sid, c.isClearCartRequest = false) ∧
    ClientCall.invalidateCartQuery sid ∈ checkoutSuccessCalls sid := by
  refine ⟨by simp [createOrderCall, h], ?_, ?_⟩
  · intro c hc
    simp [checkoutSuccessCalls, createOrderCall, h] at hc
    rcases hc with h1 | h1 | h1 <;>
      simp [h1, ClientCall.isClearCartRequest]
  · simp [checkoutSuccessCalls]

/-- Evaluation of claim C8 (amended) on a concrete session id. -/
theorem checkout_delegates_clearing_witness :
    createOrderCall (some "sess1") = ClientCall.postOrder (some "sess1") :=
  (checkout_delegates_clearing "sess1" (by decide)).1

/-- A user interaction with the quantity controls of the product detail modal
(`ProductDetailModal.tsx`): the minus button, the plus button, or typing into
the number input — whose value parses to an integer, or to NaN (`none`). -/
inductive ModalEvent where
  | dec
  | inc
  | typed (v : Option Int)
deriving Repr, DecidableEq

/-- The typed-input handler in `ProductDetailModal.tsx` (line 124):
`Math.max(1, parseInt(e.target.value) || 1)` — `parseInt` yields NaN (`none`)
on unparsable input, `|| 1` replaces both NaN and 0 with 1, and the result is
clamped to at least 1. -/
def typedQuantity (v : Option Int) : Int :=
  max 1 (match v with
         | none => 1
         | some n => if n = 0 then 1 else n)

/-- One step of the modal's quantity state (`ProductDetailModal.tsx`, lines
113-133): the minus button sets `Math.max(1, quantity - 1)`, the plus button
sets `quantity + 1`, typing re-parses and clamps. -/
def modalStep (q : Int) : ModalEvent → Int
  | .dec => max 1 (q - 1)
  | .inc => q + 1
  | .typed v => typedQuantity v

/-- The modal's quantity after a sequence of interactions, starting from the
initial `useState(1)`; this is the quantity the modal's add-to-cart button
passes to `onAddToCart`. -/
def modalQuantity (events : List ModalEvent) : Int :=
  events.foldl modalStep 1

/-- The argument the cart view's decrement button passes to `onUpdateQuantity`
(`Cart.tsx`, line 125): `Math.max(1, item.quantity - 1)`. -/
def cartDecArg (q : Nat) : Nat := max 1 (q - 1)

/-- The argument the cart view's increment button passes to `onUpdateQuantity`
(`Cart.tsx`, line 139): `item.quantity + 1`. -/
def cartIncArg (q : Nat) : Nat := q + 1

/-- The modal's quantity state stays at least 1 from any starting value that
is at least 1, under any interaction sequence. -/
theorem modalQuantity_invariant (events : List ModalEvent) (q : Int)
    (hq : 1 ≤ q) : 1 ≤ events.foldl modalStep q := by
  induction events generalizing q with
  | nil => exact hq
  | cons e es ih =>
      refine ih (modalStep q e) ?_
      cases e with
      | dec => exact le_max_left 1 (q - 1)
      | inc => simp only [modalStep]; omega
      | typed v => exact le_max_left 1 _

/-- Claim C10: every quantity the web client's quantity controls can produce
is at least 1 — the product detail modal's quantity state stays at least 1
under any interaction sequence, so every add issued through it carries a
quantity of at least 1, and the cart view's decrement and increment handlers
pass arguments of at least 1 to the update operation for any displayed line
quantity — so a line can only leave the cart through the distinct remove
handler. -/
theorem quantity_controls_at_least_one (events : List ModalEvent) (q : Nat) :
    1 ≤ modalQuantity events ∧ 1 ≤ cartDecArg q ∧ 1 ≤ cartIncArg q := by
  refine ⟨modalQuantity_invariant events 1 le_rfl, ?_, ?_⟩
  · exact Nat.le_max_left 1 (q - 1)
  · exact Nat.succ_le_succ (Nat.zero_le q)

/-- A canonical cart line (spec section 3): the quantity together with the
price and display snapshot captured at the moment the line was created. -/
structure CartLine where
  product_id : String
  quantity : Nat
  unit_price : ℚ
  name : String
  color : String
  size : String
  image_url : String
  pricebook_entry_id : String
deriving Repr, DecidableEq

/-- The snapshot part of a cart line — every field except the quantity. -/
structure LineSnapshot where
  unit_price : ℚ
  name : String
  color : String
  size : String
  image_url : String
  pricebook_entry_id : String
deriving Repr, DecidableEq

/-- The snapshot carried by a line. -/
def CartLine.snapshot (l : CartLine) : LineSnapshot :=
  { unit_price := l.unit_price, name := l.name, color := l.color,
    size := l.size, image_url := l.image_url,
    pricebook_entry_id := l.pricebook_entry_id }

/-- The caller-visible error kinds of the canonical store (spec section 7). -/
inductive CartError where
  | SessionNotFound
  | ProductNotFound
  | ValidationError
deriving Repr, DecidableEq

namespace CartStore

/-- Total quantity held by the lines of the given product. -/
def qtyOf : List CartLine → String → Nat
  | [], _ => 0
  | l :: ls, pid => (if l.product_id = pid then l.quantity else 0) + qtyOf ls pid

/-- Number of lines of the given product. -/
def countOf : List CartLine → String → Nat
  | [], _ => 0
  | l :: ls, pid => (if l.product_id = pid then 1 else 0) + countOf ls pid

/-- The first line of the given product, if any. -/
def findLine : List CartLine → String → Option CartLine
  | [], _ => none
  | l :: ls, pid => if l.product_id = pid then some l else findLine ls pid

/-- Modelled from the spec: the backend CartStore (spec section 4.2) is not
among the sources here — only its web client is.  Per the spec, `add` with an
existing line for the product increments that line's quantity (never
overwriting it or its snapshot); otherwise it appends a new line carrying the
given snapshot. -/
def add (cart : List CartLine) (pid : String) (qty : Nat)
    (snap : LineSnapshot) : List CartLine :=
  if cart.any (fun l => l.product_id == pid) then
    cart.map (fun l =>
      if l.product_id = pid then { l with quantity := l.quantity + qty } else l)
  else
    cart ++ [{ product_id := pid, quantity := qty,
               unit_price := snap.unit_price, name := snap.name,
               color := snap.color, size := snap.size,
               image_url := snap.image_url,
               pricebook_entry_id := snap.pricebook_entry_id }]

/-- A sequence of `add` calls for the same product, each carrying a quantity
and a snapshot, applied in order. -/
def addMany (cart : List CartLine) (pid : String) :
    List (Nat × LineSnapshot) → List CartLine
  | [] => cart
  | a :: as => addMany (add cart pid a.1 a.2) pid as

/-- Modelled from the spec: the backend `setQuantity` (spec section 4.2) is
not among the sources here.  Per the spec, a quantity below 1 is rejected with
`ValidationError` before touching the cart, a missing line is rejected with
`ProductNotFound`, and otherwise the line's quantity is set to the given
value. -/
def setQuantity (cart : List CartLine) (pid : String) (qty : Int) :
    Except CartError (List CartLine) :=
  if qty < 1 then .error .ValidationError
  else if cart.any (fun l => l.product_id == pid) then
    .ok (cart.map (fun l =>
      if l.product_id = pid then { l with quantity := qty.toNat } else l))
  else .error .ProductNotFound

/-- The canonical cart after a `setQuantity` request: a rejected operation
leaves the store unchanged. -/
def cartAfterSetQuantity (cart : List CartLine) (pid : String) (qty : Int) :
    List CartLine :=
  match setQuantity cart pid qty with
  | .ok c => c
  | .error _ => cart

end CartStore

/-- A concrete one-line canonical cart: product p1, quantity 2, price 10. -/
def sampleStoreCart : List CartLine :=
  [{ product_id := "p1", quantity := 2, unit_price := 10, name := "Tee",
     color := "", size := "", image_url := "", pricebook_entry_id := "pbe1" }]

/-- Claim C5: a setQuantity with quantity 0, or any value below 1, is rejected
with ValidationError, and the cart — in particular the affected line's
quantity — is unchanged by the rejected operation. -/
theorem setQuantity_rejects_below_one (cart : List CartLine) (pid : String)
    (qty : Int) (h : qty < 1) :
    CartStore.setQuantity cart pid qty = .error .ValidationError ∧
    CartStore.cartAfterSetQuantity cart pid qty = cart ∧
    CartStore.qtyOf (CartStore.cartAfterSetQuantity cart pid qty) pid
      = CartStore.qtyOf cart pid := by
  have h1 : CartStore.setQuantity cart pid qty = .error .ValidationError := by
    simp [CartStore.setQuantity, h]
  have h2 : CartStore.cartAfterSetQuantity cart pid qty = cart := by
    simp [CartStore.cartAfterSetQuantity, h1]
  exact ⟨h1, h2, by rw [h2]⟩

/-- Evaluation of claim C5 at quantity 0 on a concrete cart: the request is
rejected and the line keeps its prior quantity 2. -/
theorem setQuantity_rejects_below_one_witness :
    CartStore.setQuantity sampleStoreCart "p1" 0
        = .error .ValidationError ∧
      CartStore.cartAfterSetQuantity sampleStoreCart "p1" 0 = sampleStoreCart ∧
      CartStore.qtyOf (CartStore.cartAfterSetQuantity sampleStoreCart "p1" 0)
          "p1"
        = CartStore.qtyOf sampleStoreCart "p1" :=
  setQuantity_rejects_below_one sampleStoreCart "p1" 0 (by decide)

/-- A concrete snapshot used to evaluate the store model. -/
def sampleSnapshot : LineSnapshot :=
  { unit_price := 10, name := "Tee", color := "", size := "",
    image_url := "", pricebook_entry_id := "pbe1" }

/-- Membership test used by the store equals positivity of the line count. -/
theorem any_eq_countOf_pos (cart : List CartLine) (pid : String) :
    cart.any (fun l => l.product_id == pid) = true
      ↔ 0 < CartStore.countOf cart pid := by
  induction cart with
  | nil => simp [CartStore.countOf]
  | cons l ls ih =>
      by_cases h : l.product_id = pid <;>
        simp [CartStore.countOf, h, ih]

/-- A cart holding no line for a product holds no quantity of it. -/
theorem countOf_zero_qtyOf (cart : List CartLine) (pid : String)
    (h : CartStore.countOf cart pid = 0) : CartStore.qtyOf cart pid = 0 := by
  induction cart with
  | nil => rfl
  | cons l ls ih =>
      by_cases hl : l.product_id = pid
      · simp [CartStore.countOf, hl] at h
      · simp [CartStore.countOf, hl] at h
        simp [CartStore.qtyOf, hl, ih h]

/-- A found line implies a positive line count. -/
theorem findLine_some_countOf_pos (cart : List CartLine) (pid : String)
    (l : CartLine) (h : CartStore.findLine cart pid = some l) :
    0 < CartStore.countOf cart pid := by
  induction cart with
  | nil => simp [CartStore.findLine] at h
  | cons x xs ih =>
      by_cases hx : x.product_id = pid
      · simp [CartStore.countOf, hx]
      · simp [CartStore.findLine, hx] at h
        simp [CartStore.countOf, hx]
        exact ih h

/-- Incrementing the matching lines adds the quantity once per matching line. -/
theorem qtyOf_map_inc (cart : List CartLine) (pid : String) (qty : Nat) :
    CartStore.qtyOf
        (cart.map (fun l =>
          if l.product_id = pid then { l with quantity := l.quantity + qty }
          else l)) pid
      = CartStore.qtyOf cart pid + qty * CartStore.countOf cart pid := by
  induction cart with
  | nil => simp [CartStore.qtyOf, CartStore.countOf]
  | cons l ls ih =>
      by_cases h : l.product_id = pid
      · simp [CartStore.qtyOf, CartStore.countOf, h, ih]
        ring
      · simp [CartStore.qtyOf, CartStore.countOf, h, ih]

/-- Incrementing the matching lines leaves the line count unchanged. -/
theorem countOf_map_inc (cart : List CartLine) (pid : String) (qty : Nat) :
    CartStore.countOf
        (cart.map (fun l =>
          if l.product_id = pid then { l with quantity := l.quantity + qty }
          else l)) pid
      = CartStore.countOf cart pid := by
  induction cart with
  | nil => rfl
  | cons l ls ih =>
      by_cases h : l.product_id = pid <;>
        simp [CartStore.countOf, h, ih]

/-- Quantity held after appending a single line. -/
theorem qtyOf_append_single (cart : List CartLine) (pid : String)
    (n : CartLine) :
    CartStore.qtyOf (cart ++ [n]) pid
      = CartStore.qtyOf cart pid
        + (if n.product_id = pid then n.quantity else 0) := by
  induction cart with
  | nil => simp [CartStore.qtyOf]
  | cons l ls ih => simp [CartStore.qtyOf, ih]; ring

/-- Line count after appending a single line. -/
theorem countOf_append_single (cart : List CartLine) (pid : String)
    (n : CartLine) :
    CartStore.countOf (cart ++ [n]) pid
      = CartStore.countOf cart pid
        + (if n.product_id = pid then 1 else 0) := by
  induction cart with
  | nil => simp [CartStore.countOf]
  | cons l ls ih => simp [CartStore.countOf, ih]; ring

/-- Incrementing the matching lines maps the found line to the same line with
its quantity incremented. -/
theorem findLine_map_inc (cart : List CartLine) (pid : String) (qty : Nat)
    (l : CartLine) (h : CartStore.findLine cart pid = some l) :
    CartStore.findLine
        (cart.map (fun x =>
          if x.product_id = pid then { x with quantity := x.quantity + qty }
          else x)) pid
      = some { l with quantity := l.quantity + qty } := by
  induction cart with
  | nil => simp [CartStore.findLine] at h
  | cons x xs ih =>
      by_cases hx : x.product_id = pid
      · simp [CartStore.findLine, hx] at h
        subst h
        simp [CartStore.findLine, hx]
      · simp [CartStore.findLine, hx] at h
        simp [CartStore.findLine, hx, ih h]

/-- One `add` on a duplicate-free cart: the product's quantity grows by
exactly the added quantity, no duplicate line appears, and an existing line
keeps its snapshot. -/
theorem add_step (cart : List CartLine) (pid : String) (q : Nat)
    (snap : LineSnapshot) (hcount : CartStore.countOf cart pid ≤ 1) :
    CartStore.qtyOf (CartStore.add cart pid q snap) pid
      = CartStore.qtyOf cart pid + q ∧
    CartStore.countOf (CartStore.add cart pid q snap) pid ≤ 1 ∧
    ∀ l : CartLine, CartStore.findLine cart pid = some l →
      ∃ l2 : CartLine, CartStore.findLine (CartStore.add cart pid q snap) pid
          = some l2 ∧ l2.snapshot = l.snapshot ∧
        l2.quantity = l.quantity + q := by
  by_cases hany : cart.any (fun l => l.product_id == pid) = true
  · have hpos : 0 < CartStore.countOf cart pid :=
      (any_eq_countOf_pos cart pid).mp hany
    have hone : CartStore.countOf cart pid = 1 := le_antisymm hcount hpos
    have hadd : CartStore.add cart pid q snap
        = cart.map (fun l =>
            if l.product_id = pid then
              { l with quantity := l.quantity + q }
            else l) := by
      simp [CartStore.add, hany]
    refine ⟨?_, ?_, ?_⟩
    · rw [hadd, qtyOf_map_inc, hone]
      ring
    · rw [hadd, countOf_map_inc, hone]
    · intro l hl
      refine ⟨{ l with quantity := l.quantity + q }, ?_, rfl, rfl⟩
      rw [hadd]
      exact findLine_map_inc cart pid q l hl
  · have hzero : CartStore.countOf cart pid = 0 := by
      rcases Nat.eq_zero_or_pos (CartStore.countOf cart pid) with h | h
      · exact h
      · exact absurd ((any_eq_countOf_pos cart pid).mpr h) hany
    have hq0 : CartStore.qtyOf cart pid = 0 := countOf_zero_qtyOf cart pid hzero
    have hadd : CartStore.add cart pid q snap
        = cart ++ [{ product_id := pid, quantity := q,
                     unit_price := snap.unit_price, name := snap.name,
                     color := snap.color, size := snap.size,
                     image_url := snap.image_url,
                     pricebook_entry_id := snap.pricebook_entry_id }] := by
      simp [CartStore.add, hany]
    refine ⟨?_, ?_, ?_⟩
    · rw [hadd, qtyOf_append_single, hq0]
      simp
    · rw [hadd, countOf_append_single, hzero]
      simp
    · intro l hl
      have hpos := findLine_some_countOf_pos cart pid l hl
      omega

/-- Claim C4: over any sequence of add calls for the same product on a cart
holding at most one line for it, the product's final quantity equals its
initial quantity plus the sum of the added quantities — each add increments,
never overwrites — no duplicate line for the product is ever created, and a
line that already existed keeps its price and display snapshot as originally
captured. -/
theorem add_accumulates (cart : List CartLine) (pid : String)
    (adds : List (Nat × LineSnapshot))
    (hcount : CartStore.countOf cart pid ≤ 1) :
    CartStore.qtyOf (CartStore.addMany cart pid adds) pid
      = CartStore.qtyOf cart pid + (adds.map Prod.fst).sum ∧
    CartStore.countOf (CartStore.addMany cart pid adds) pid ≤ 1 ∧
    ∀ l : CartLine, CartStore.findLine cart pid = some l →
      ∃ l2 : CartLine,
        CartStore.findLine (CartStore.addMany cart pid adds) pid = some l2 ∧
        l2.snapshot = l.snapshot ∧
        l2.quantity = l.quantity + (adds.map Prod.fst).sum := by
  induction adds generalizing cart with
  | nil =>
      exact ⟨by simp [CartStore.addMany], hcount,
        fun l hl => ⟨l, by simpa [CartStore.addMany] using hl, rfl, by simp⟩⟩
  | cons a as ih =>
      obtain ⟨hq, hc, hs⟩ := add_step cart pid a.1 a.2 hcount
      obtain ⟨ihq, ihc, ihs⟩ := ih (CartStore.add cart pid a.1 a.2) hc
      refine ⟨?_, by simpa [CartStore.addMany] using ihc, ?_⟩
      · have : CartStore.addMany cart pid (a :: as)
            = CartStore.addMany (CartStore.add cart pid a.1 a.2) pid as := rfl
        rw [this, ihq, hq]
        simp
        ring
      · intro l hl
        obtain ⟨l2, hl2, hsnap2, hq2⟩ := hs l hl
        obtain ⟨l3, hl3, hsnap3, hq3⟩ := ihs l2 hl2
        refine ⟨l3, by simpa [CartStore.addMany] using hl3,
          hsnap3.trans hsnap2, ?_⟩
        rw [hq3, hq2]
        simp
        ring

/-- Evaluation of claim C4: on a cart holding product p1 with quantity 2,
adding 3 and then 1 yields quantity 6 and still a single line for p1. -/
theorem add_accumulates_witness :
    CartStore.qtyOf
        (CartStore.addMany sampleStoreCart "p1"
          [(3, sampleSnapshot), (1, sampleSnapshot)]) "p1"
      = CartStore.qtyOf sampleStoreCart "p1" + 4 ∧
    CartStore.countOf
        (CartStore.addMany sampleStoreCart "p1"
          [(3, sampleSnapshot), (1, sampleSnapshot)]) "p1" ≤ 1 := by
  have h := add_accumulates sampleStoreCart "p1"
    [(3, sampleSnapshot), (1, sampleSnapshot)]
    (by simp [sampleStoreCart, CartStore.countOf])
  exact ⟨by simpa using h.1, h.2.1⟩
